import Mathlib

/-!
Verification of the multi-agent SDR orchestration script
(`sales_agent_SDR.py`) against its natural-language specification.

The embedding models:
* the two SendGrid tool functions `send_email` / `send_html_email`
  (provider interaction as an explicit outcome value, the Python
  try/except as `Except`, and the number of provider interactions as an
  explicit counter);
* the configuration check performed by `SalesAgentSystem.__init__`;
* the static agent/tool wiring built by `_setup_agents` / `_setup_tools`,
  with agent runs as action traces constrained by that wiring;
* the `asyncio.gather` fan-out of `generate_parallel_emails`, with the
  completion order of the three branches as an explicit parameter;
* the picker-based `select_best_email`, with the language model as an
  oracle parameter (the script itself only builds the prompt and
  forwards the model's output).
-/

/-- A Python exception value (only its message is observable here). -/
structure PyExn where
  msg : String
deriving DecidableEq

/-- Outcome of the single SendGrid `post` interaction inside the `try`
block: either an HTTP response with a status code, or a raised
exception with a message. -/
inductive ProviderOutcome where
  | response : Nat → ProviderOutcome
  | raise : String → ProviderOutcome
deriving DecidableEq

/-- The status dictionary returned by the send tools:
`{"status": ..., "status_code": ...?, "message": ...?}`. -/
structure SendStatus where
  status : String
  status_code : Option Nat
  message : Option String
deriving DecidableEq

/-- The global `TEST_MODE` flag as set at the top of the script
(line 39: `TEST_MODE = False`). -/
def TEST_MODE : Bool := false

/-- The body of the `try` block shared by `send_email` and
`send_html_email`: one provider interaction; status code 202 yields a
success dictionary, any other code an error dictionary with that code,
and a raised exception propagates. -/
def send_attempt (provider : ProviderOutcome) : Except PyExn SendStatus :=
  match provider with
  | .response c =>
      if c = 202 then .ok ⟨"success", some c, none⟩
      else .ok ⟨"error", some c, none⟩
  | .raise m => .error ⟨m⟩

/-- `send_email(body)`.  The first component is the function's result
(`Except` because a Python function can in principle raise; this one
catches everything).  The second component counts provider
interactions.  In test mode the provider is never contacted. -/
def send_email (test_mode : Bool) (provider : ProviderOutcome) (body : String) :
    Except PyExn SendStatus × Nat :=
  if test_mode then
    (.ok ⟨"success", some 202, none⟩, 0)
  else
    match send_attempt provider with
    | .ok r => (.ok r, 1)
    | .error e => (.ok ⟨"error", none, some e.msg⟩, 1)

/-- `send_html_email(subject, html_body)`; same structure as
`send_email`. -/
def send_html_email (test_mode : Bool) (provider : ProviderOutcome)
    (subject : String) (html_body : String) : Except PyExn SendStatus × Nat :=
  if test_mode then
    (.ok ⟨"success", some 202, none⟩, 0)
  else
    match send_attempt provider with
    | .ok r => (.ok r, 1)
    | .error e => (.ok ⟨"error", none, some e.msg⟩, 1)

/-- Spec-side description of the send outcome, written from the spec's
words: status is success exactly for provider code 202; other codes
yield an error carrying the code; a provider exception yields an error
carrying the message.  Used to compare the code's behaviour against the
spec (claim C6). -/
def sendResultOfOutcome : ProviderOutcome → SendStatus
  | .response c =>
      if c = 202 then ⟨"success", some c, none⟩ else ⟨"error", some c, none⟩
  | .raise m => ⟨"error", none, some m⟩

/-- Configuration errors raised by `SalesAgentSystem.__init__`
(`ValueError`s in the source). -/
inductive ConfigError where
  | missing_openai_api_key
  | missing_sendgrid_api_key
deriving DecidableEq

/-- The environment slice read by `__init__` via `os.environ.get`;
`none` when the variable is absent. -/
structure Env where
  openai_api_key : Option String
  sendgrid_api_key : Option String

/-- Python truthiness of `os.environ.get(...)`: `None` and the empty
string are falsy. -/
def truthy : Option String → Bool
  | none => false
  | some s => !(s == "")

/-- The setup phases that `__init__` executes after its configuration
checks succeed. -/
inductive InitPhase where
  | setup_agents
  | setup_tools
deriving DecidableEq

/-- `SalesAgentSystem.__init__`: checks `OPENAI_API_KEY` first, then
(outside test mode) `SENDGRID_API_KEY`; only when both checks pass does
it run `_setup_agents` and `_setup_tools`.  An error result means no
setup phase (and hence no workflow phase) executed. -/
def SalesAgentSystem.init (test_mode : Bool) (env : Env) :
    Except ConfigError (List InitPhase) :=
  if !(truthy env.openai_api_key) then .error .missing_openai_api_key
  else if !test_mode && !(truthy env.sendgrid_api_key) then .error .missing_sendgrid_api_key
  else .ok [.setup_agents, .setup_tools]

/-- The agents created by `_setup_agents` / `_setup_tools`. -/
inductive AgentName where
  | sales_agent1
  | sales_agent2
  | sales_agent3
  | sales_picker
  | subject_writer
  | html_converter
  | emailer_agent
  | sales_manager
deriving DecidableEq

/-- The tools registered by `_setup_tools` (the three agent-as-tool
wrappers of the generator agents, the two formatting agent-as-tool
wrappers, and the standalone `send_html_email` function tool; the
`send_email` function tool is defined in the script but registered with
no agent). -/
inductive ToolName where
  | sales_agent1_tool
  | sales_agent2_tool
  | sales_agent3_tool
  | subject_writer_tool
  | html_converter_tool
  | send_html_email_tool
deriving DecidableEq

/-- `tools=` arguments from `_setup_tools`: the sales manager holds the
three generator tools; the emailer agent holds the subject tool, the
html tool and `send_html_email`; every other agent holds no tools. -/
def agent_tools : AgentName → List ToolName
  | .sales_manager => [.sales_agent1_tool, .sales_agent2_tool, .sales_agent3_tool]
  | .emailer_agent => [.subject_writer_tool, .html_converter_tool, .send_html_email_tool]
  | _ => []

/-- `handoffs=` arguments from `_setup_tools`: only the sales manager
can hand off, and only to the emailer agent. -/
def agent_handoffs : AgentName → List AgentName
  | .sales_manager => [.emailer_agent]
  | _ => []

/-- One step chosen by the language model inside an agent run: call a
tool, hand the run off to another agent, or produce the final output. -/
inductive AgentAction where
  | call : ToolName → AgentAction
  | handoff : AgentName → AgentAction
  | finish : AgentAction
deriving DecidableEq

/-- Whether agent `a` is allowed to take an action: it may only call
its own registered tools and hand off to its registered handoff
targets.  Nothing in the script constrains how often or in which order
the model picks admissible actions. -/
def step_ok (a : AgentName) : AgentAction → Bool
  | .call t => decide (t ∈ agent_tools a)
  | .handoff b => decide (b ∈ agent_handoffs a)
  | .finish => true

/-- A run of the agent framework starting at agent `a`: every action is
admissible for the currently active agent, a handoff transfers control
to the target agent, and `finish` ends the run. -/
def valid_run (a : AgentName) : List AgentAction → Bool
  | [] => true
  | act :: rest =>
      step_ok a act &&
        match act with
        | .handoff b => valid_run b rest
        | .finish => rest.isEmpty
        | .call _ => valid_run a rest

/-- Number of `send_html_email` tool invocations in a run. -/
def send_count (run : List AgentAction) : Nat :=
  run.countP (fun act => decide (act = .call .send_html_email_tool))

/-- Whether an action is a handoff. -/
def is_handoff : AgentAction → Bool
  | .handoff _ => true
  | _ => false

/-- The result object returned by `Runner.run`; the script only reads
its `final_output`. -/
structure RunResult where
  final_output : String
deriving DecidableEq

/-- A generation failure propagated out of a `Runner.run` branch. -/
structure GenError where
  msg : String
deriving DecidableEq

/-- Slot-filling semantics of `asyncio.gather`: branches complete in
the order given by `order`; each completed branch stores its result in
the slot of its own index; a failing branch makes the whole gather
fail. -/
def fillSlots : List (Fin 3) → (Fin 3 → Except GenError RunResult) →
    (Fin 3 → Option RunResult) → Except GenError (Fin 3 → Option RunResult)
  | [], _, slots => .ok slots
  | i :: rest, res, slots =>
      match res i with
      | .error e => .error e
      | .ok r => fillSlots rest res (fun j => if j = i then some r else slots j)

/-- `asyncio.gather` over the three generator branches: `none` models
"still suspended" (the join barrier has not released), `some` models a
returned value — the three slot contents in input order when all three
completed, or the error of a failed branch. -/
def gather3 (order : List (Fin 3)) (res : Fin 3 → Except GenError RunResult) :
    Option (Except GenError (List RunResult)) :=
  match fillSlots order res (fun _ => none) with
  | .error e => some (.error e)
  | .ok slots =>
      match slots 0, slots 1, slots 2 with
      | some a, some b, some c => some (.ok [a, b, c])
      | _, _, _ => none

/-- The generator agent behind branch `i` of the fan-out
(`sales_agent1`, `sales_agent2`, `sales_agent3` in that order). -/
def genAgent (i : Fin 3) : AgentName :=
  if i = 0 then .sales_agent1 else if i = 1 then .sales_agent2 else .sales_agent3

/-- `generate_parallel_emails(message)`: gather the three
`Runner.run(sales_agentK, message)` branches and map `final_output`
over the results.  `runner` is the external `Runner.run` collaborator,
`order` the completion order of the branches. -/
def generate_parallel_emails (runner : AgentName → String → Except GenError RunResult)
    (order : List (Fin 3)) (message : String) :
    Option (Except GenError (List String)) :=
  match gather3 order (fun i => runner (genAgent i) message) with
  | none => none
  | some (.error e) => some (.error e)
  | some (.ok results) => some (.ok (results.map RunResult.final_output))

/-- The prompt `select_best_email` builds for the picker agent:
`"Cold sales emails:\n\n" + "\n\nEmail:\n\n".join(emails)`. -/
def format_email_options (emails : List String) : String :=
  "Cold sales emails:\n\n" ++ String.intercalate "\n\nEmail:\n\n" emails

/-- `select_best_email(emails)`: run the picker agent on the formatted
options and return its `final_output` unchanged.  `picker` is the
external `Runner.run(sales_picker, ...)` collaborator. -/
def select_best_email (picker : String → Except PyExn RunResult)
    (emails : List String) : Except PyExn String :=
  (picker (format_email_options emails)).map RunResult.final_output

/-- Invoking an agent-as-tool wrapper: the input text is passed to the
wrapped agent, whose fixed configuration is identified by its name; the
`sample` argument models the sampling nondeterminism of the underlying
model call. -/
def agent_as_tool (llm : AgentName → String → Nat → String)
    (a : AgentName) (input : String) (sample : Nat) : String :=
  llm a input sample

/-- The `subject_writer` step of the emailer chain applied to a body. -/
def subject_step (llm : AgentName → String → Nat → String)
    (body : String) (sample : Nat) : String :=
  agent_as_tool llm .subject_writer body sample

/-- The `html_converter` step of the emailer chain applied to a body. -/
def html_step (llm : AgentName → String → Nat → String)
    (body : String) (sample : Nat) : String :=
  agent_as_tool llm .html_converter body sample

/-- Claim C10: with the global test-mode flag true, both send tools
return the success/202 dictionary for every input and never contact the
provider (zero provider interactions). -/
theorem C10_test_mode_short_circuit :
    ∀ (p : ProviderOutcome) (body subject html_body : String),
      send_email true p body = (.ok ⟨"success", some 202, none⟩, 0) ∧
      send_html_email true p subject html_body = (.ok ⟨"success", some 202, none⟩, 0) :=
  fun _ _ _ _ => ⟨rfl, rfl⟩

/-- Claim C9: the send tools are total — for every input they return a
status dictionary (the `Except` result is always `ok`, never a
propagated exception), and a provider exception is mapped to an error
dictionary carrying the exception's message. -/
theorem C9_send_tools_total :
    ∀ (tm : Bool) (p : ProviderOutcome) (body subject html_body : String),
      (∃ r, (send_email tm p body).1 = Except.ok r) ∧
      (∃ r, (send_html_email tm p subject html_body).1 = Except.ok r) ∧
      (∀ m, p = .raise m → tm = false →
        (send_email tm p body).1 = .ok ⟨"error", none, some m⟩ ∧
        (send_html_email tm p subject html_body).1 = .ok ⟨"error", none, some m⟩) := by
  intro tm p body subject html_body
  refine ⟨?_, ?_, ?_⟩
  · cases tm
    · cases p with
      | response c =>
          by_cases hc : c = 202 <;>
            simp [send_email, send_attempt, hc]
      | raise m => exact ⟨_, rfl⟩
    · exact ⟨_, rfl⟩
  · cases tm
    · cases p with
      | response c =>
          by_cases hc : c = 202 <;>
            simp [send_html_email, send_attempt, hc]
      | raise m => exact ⟨_, rfl⟩
    · exact ⟨_, rfl⟩
  · rintro m rfl rfl
    exact ⟨rfl, rfl⟩

/-- Claim C9 witness: a raising provider is caught and mapped. -/
theorem C9_send_tools_total_witness :
    (send_email false (.raise "boom") "b").1 = .ok ⟨"error", none, some "boom"⟩ ∧
    (send_html_email false (.raise "boom") "s" "h").1 = .ok ⟨"error", none, some "boom"⟩ :=
  (C9_send_tools_total false (.raise "boom") "b" "s" "h").2.2 "boom" rfl rfl

/-- Claim C6: every invocation of the send tools (with the script's
`TEST_MODE = False`) returns a status dictionary equal to the
spec-side mapping of the provider outcome; that mapping's status is
"success" exactly when the provider answered 202, and is always either
"success" or "error". -/
theorem C6_send_result_status :
    ∀ (p : ProviderOutcome) (body subject html_body : String),
      (send_email TEST_MODE p body).1 = .ok (sendResultOfOutcome p) ∧
      (send_html_email TEST_MODE p subject html_body).1 = .ok (sendResultOfOutcome p) ∧
      ((sendResultOfOutcome p).status = "success" ↔ p = .response 202) ∧
      ((sendResultOfOutcome p).status = "success" ∨ (sendResultOfOutcome p).status = "error") := by
  intro p body subject html_body
  cases p with
  | response c =>
      by_cases hc : c = 202 <;>
        simp [send_email, send_html_email, send_attempt, sendResultOfOutcome, TEST_MODE, hc]
  | raise m =>
      simp [send_email, send_html_email, send_attempt, sendResultOfOutcome, TEST_MODE]

/-- Claim C7: `__init__` fails with the matching configuration error
when a required credential is absent (or empty, which Python treats the
same) before any setup phase runs, and succeeds — taking no error
branch — when all required configuration is present. -/
theorem C7_configuration_check :
    ∀ env : Env,
      (truthy env.openai_api_key = false →
        SalesAgentSystem.init TEST_MODE env = .error .missing_openai_api_key) ∧
      (truthy env.openai_api_key = true → truthy env.sendgrid_api_key = false →
        SalesAgentSystem.init TEST_MODE env = .error .missing_sendgrid_api_key) ∧
      (truthy env.openai_api_key = true → truthy env.sendgrid_api_key = true →
        SalesAgentSystem.init TEST_MODE env = .ok [.setup_agents, .setup_tools]) := by
  intro env
  refine ⟨?_, ?_, ?_⟩
  · intro h1
    simp [SalesAgentSystem.init, h1]
  · intro h1 h2
    simp [SalesAgentSystem.init, TEST_MODE, h1, h2]
  · intro h1 h2
    simp [SalesAgentSystem.init, TEST_MODE, h1, h2]

/-- Claim C7 witness: a missing `OPENAI_API_KEY`, a missing
`SENDGRID_API_KEY`, and a fully configured environment. -/
theorem C7_configuration_check_witness :
    SalesAgentSystem.init TEST_MODE ⟨none, some "sg-key"⟩ = .error .missing_openai_api_key ∧
    SalesAgentSystem.init TEST_MODE ⟨some "oa-key", none⟩ = .error .missing_sendgrid_api_key ∧
    SalesAgentSystem.init TEST_MODE ⟨some "oa-key", some "sg-key"⟩ = .ok [.setup_agents, .setup_tools] :=
  ⟨(C7_configuration_check ⟨none, some "sg-key"⟩).1 (by decide),
   (C7_configuration_check ⟨some "oa-key", none⟩).2.1 (by decide) (by decide),
   (C7_configuration_check ⟨some "oa-key", some "sg-key"⟩).2.2 (by decide) (by decide)⟩

/-- Claim C4 counterexample: a run of the framework that respects the
script's tool/handoff wiring in which the send tool is invoked twice.
The script requests at-most-once sending only through natural-language
instructions; nothing in the code enforces it. -/
theorem C4_send_at_most_once_counterexample :
    valid_run .sales_manager
        [.handoff .emailer_agent, .call .send_html_email_tool,
         .call .send_html_email_tool, .finish] = true ∧
    send_count
        [.handoff .emailer_agent, .call .send_html_email_tool,
         .call .send_html_email_tool, .finish] = 2 := by
  decide

/-- In every valid run, a send-tool call is admissible only for the
emailer agent. -/
theorem step_ok_send_only_emailer :
    ∀ a : AgentName, step_ok a (.call .send_html_email_tool) = true →
      a = .emailer_agent := by
  intro a
  cases a <;> decide

/-- Helper: within the segment of a sales-manager run before the first
handoff, the send tool is never called (it is not among the manager's
tools). -/
theorem manager_segment_no_send :
    ∀ run : List AgentAction, valid_run .sales_manager run = true →
      send_count (run.takeWhile fun act => !(is_handoff act)) = 0 := by
  intro run
  induction run with
  | nil => intro _; rfl
  | cons act rest ih =>
      intro h
      cases act with
      | call t =>
          simp only [valid_run, Bool.and_eq_true] at h
          obtain ⟨h1, h2⟩ := h
          have ht : t ≠ ToolName.send_html_email_tool := by
            revert h1
            cases t <;> decide
          have hrest := ih h2
          simp only [send_count] at hrest
          show List.countP (fun act => decide (act = AgentAction.call ToolName.send_html_email_tool))
              (AgentAction.call t :: List.takeWhile (fun act => !(is_handoff act)) rest) = 0
          simp only [List.countP_cons, hrest]
          simp [ht]
      | handoff b =>
          simp [List.takeWhile_cons, is_handoff, send_count]
      | finish =>
          simp only [valid_run, Bool.and_eq_true] at h
          obtain ⟨-, h2⟩ := h
          cases rest with
          | nil => decide
          | cons x xs => simp at h2

/-- Claim C4 amended: what the code's wiring does enforce — the send
tool is registered only with the emailer agent, so a send-tool call is
admissible only for it, and in any valid sales-manager run no send
occurs before the manager hands off; the code itself imposes no upper
bound on the number of sends (at-most-once is requested via
instructions only). -/
theorem C4_send_at_most_once_amended :
    (∀ a : AgentName, step_ok a (.call .send_html_email_tool) = true →
      a = .emailer_agent) ∧
    (∀ run : List AgentAction, valid_run .sales_manager run = true →
      send_count (run.takeWhile fun act => !(is_handoff act)) = 0) :=
  ⟨step_ok_send_only_emailer, manager_segment_no_send⟩

/-- Claim C4 amended witness: concrete instances of both conjuncts. -/
theorem C4_send_at_most_once_amended_witness :
    AgentName.emailer_agent = AgentName.emailer_agent ∧
    send_count (([AgentAction.call .sales_agent1_tool,
        AgentAction.finish]).takeWhile fun act => !(is_handoff act)) = 0 :=
  ⟨C4_send_at_most_once_amended.1 .emailer_agent (by decide),
   C4_send_at_most_once_amended.2
     [AgentAction.call .sales_agent1_tool, AgentAction.finish] (by decide)⟩

/-- Claim C5 counterexample: a valid emailer-chain run that performs
the subject and html steps and then invokes the send tool twice — the
code does not enforce a single send attempt per chain invocation. -/
theorem C5_single_send_counterexample :
    valid_run .emailer_agent
        [.call .subject_writer_tool, .call .html_converter_tool,
         .call .send_html_email_tool, .call .send_html_email_tool, .finish] = true ∧
    send_count
        [.call .subject_writer_tool, .call .html_converter_tool,
         .call .send_html_email_tool, .call .send_html_email_tool, .finish] = 2 := by
  decide

/-- Claim C5 amended: within one invocation of the `send_html_email`
tool the guarantee holds — a provider error status is surfaced as the
tool's returned dictionary (not raised and not retried) and exactly one
provider interaction occurs; chain-level single-send is not enforced by
the code. -/
theorem C5_single_send_amended :
    ∀ (c : Nat) (subject html_body : String), c ≠ 202 →
      send_html_email false (.response c) subject html_body =
        (.ok ⟨"error", some c, none⟩, 1) := by
  intro c subject html_body hc
  simp [send_html_email, send_attempt, hc]

/-- Claim C5 amended witness: the spec's stubbed-provider scenario, a
500 response. -/
theorem C5_single_send_amended_witness :
    send_html_email false (.response 500) "subj" "<p>b</p>" =
      (.ok ⟨"error", some 500, none⟩, 1) :=
  C5_single_send_amended 500 "subj" "<p>b</p>" (by decide)

/-- Claim C2 counterexample: `select_best_email` returns the picker
agent's output unmodified and performs no membership check, so a picker
that rewrites (as nothing in the code prevents) yields a result that is
not among the candidates — even on a singleton input. -/
theorem C2_exact_match_counterexample :
    select_best_email (fun _ => .ok ⟨"NOT A CANDIDATE"⟩) ["hello"] =
      .ok "NOT A CANDIDATE" ∧
    "NOT A CANDIDATE" ∉ (["hello"] : List String) := by
  constructor
  · rfl
  · decide

/-- Claim C2 amended: the exact-match invariant holds exactly when the
picker's reply is itself one of the candidates — under that compliance
assumption the selector's result is a candidate, and on a singleton
input it is that very candidate. -/
theorem C2_exact_match_amended :
    ∀ (picker : String → Except PyExn RunResult) (emails : List String) (r : RunResult),
      picker (format_email_options emails) = .ok r →
      r.final_output ∈ emails →
      select_best_email picker emails = .ok r.final_output ∧
      (∀ e, emails = [e] → select_best_email picker emails = .ok e) := by
  intro picker emails r h hm
  constructor
  · simp [select_best_email, h, Except.map]
  · intro e he
    subst he
    have : r.final_output = e := by simpa using hm
    simp [select_best_email, h, this, Except.map]

/-- Claim C2 amended witness: a compliant picker on a two-candidate
list and on a singleton. -/
theorem C2_exact_match_amended_witness :
    select_best_email (fun _ => .ok ⟨"a"⟩) ["a"] = .ok "a" :=
  (C2_exact_match_amended (fun _ => .ok ⟨"a"⟩) ["a"] ⟨"a"⟩ rfl (by decide)).2 "a" rfl

/-- Claim C3 counterexample: on an empty candidate list the selection
does not fail — `select_best_email` builds the header-only prompt,
runs the picker on it, and returns a value. -/
theorem C3_empty_input_counterexample :
    select_best_email (fun p => .ok ⟨p⟩) [] = .ok "Cold sales emails:\n\n" := by
  have h : format_email_options [] = "Cold sales emails:\n\n" := by decide
  simp [select_best_email, h, Except.map]

/-- Claim C3 amended: the empty candidate list is not rejected; the
picker is invoked on the prompt containing no candidate emails and its
output is returned as the selection. -/
theorem C3_empty_input_amended :
    format_email_options [] = "Cold sales emails:\n\n" ∧
    ∀ (picker : String → Except PyExn RunResult) (r : RunResult),
      picker "Cold sales emails:\n\n" = .ok r →
      select_best_email picker [] = .ok r.final_output := by
  have h : format_email_options [] = "Cold sales emails:\n\n" := by decide
  refine ⟨h, ?_⟩
  intro picker r hp
  simp [select_best_email, h, hp, Except.map]

/-- Claim C3 amended witness. -/
theorem C3_empty_input_amended_witness :
    select_best_email (fun _ => .ok ⟨"x"⟩) [] = .ok "x" :=
  C3_empty_input_amended.2 (fun _ => .ok ⟨"x"⟩) ⟨"x"⟩ rfl

/-- Claim C8 counterexample: the subject step is a model call, and the
model may answer differently on two invocations with the same body
(sampling nondeterminism); the code adds no caching or other
determinism. -/
theorem C8_purity_counterexample :
    subject_step (fun _ _ k => if k = 0 then "Subject A" else "Subject B") "body" 0 ≠
    subject_step (fun _ _ k => if k = 0 then "Subject A" else "Subject B") "body" 1 := by
  decide

/-- Claim C8 amended: both formatting steps depend only on the body
text and the invoked agent's fixed configuration — in particular they
read no other workflow state and send nothing — so whenever the
underlying model is deterministic (its reply is independent of the
sample), two invocations on the same body coincide. -/
theorem C8_purity_amended :
    ∀ (llm : AgentName → String → Nat → String) (body : String) (k1 k2 : Nat),
      (∀ a input k k', llm a input k = llm a input k') →
      subject_step llm body k1 = subject_step llm body k2 ∧
      html_step llm body k1 = html_step llm body k2 :=
  fun llm body k1 k2 h => ⟨h _ body k1 k2, h _ body k1 k2⟩

/-- Claim C8 amended witness: a deterministic model oracle. -/
theorem C8_purity_amended_witness :
    subject_step (fun _ input _ => input) "b" 0 = subject_step (fun _ input _ => input) "b" 1 ∧
    html_step (fun _ input _ => input) "b" 0 = html_step (fun _ input _ => input) "b" 1 :=
  C8_purity_amended (fun _ input _ => input) "b" 0 1 (fun _ _ _ _ => rfl)

/-- Helper: when every branch succeeds, processing the completions in
any order fills exactly the slots of the processed indices with their
own branch's result. -/
theorem fillSlots_ok (res : Fin 3 → Except GenError RunResult) (r : Fin 3 → RunResult)
    (hres : ∀ i, res i = .ok (r i)) :
    ∀ (order : List (Fin 3)) (slots : Fin 3 → Option RunResult),
      fillSlots order res slots =
        .ok (fun j => if j ∈ order then some (r j) else slots j) := by
  intro order
  induction order with
  | nil =>
      intro slots
      simp [fillSlots]
  | cons i rest ih =>
      intro slots
      simp only [fillSlots, hres i]
      rw [ih]
      congr 1
      funext j
      by_cases hj : j ∈ rest
      · simp [hj, List.mem_cons]
      · by_cases hji : j = i
        · subst hji
          simp [hj, List.mem_cons]
        · simp [hj, hji, List.mem_cons]

/-- Helper: a failed gather traces to a failed branch among the
processed completions. -/
theorem fillSlots_error :
    ∀ (order : List (Fin 3)) (res : Fin 3 → Except GenError RunResult)
      (slots : Fin 3 → Option RunResult) (e : GenError),
      fillSlots order res slots = .error e →
      ∃ i, i ∈ order ∧ res i = .error e := by
  intro order
  induction order with
  | nil =>
      intro res slots e h
      simp [fillSlots] at h
  | cons i rest ih =>
      intro res slots e h
      simp only [fillSlots] at h
      cases hri : res i with
      | error e1 =>
          rw [hri] at h
          simp only at h
          cases h
          exact ⟨i, List.mem_cons_self i rest, hri⟩
      | ok r1 =>
          rw [hri] at h
          simp only at h
          obtain ⟨j, hj, hje⟩ := ih res _ e h
          exact ⟨j, List.mem_cons_of_mem i hj, hje⟩

/-- Helper: a slot that changed during filling belongs to a processed
branch. -/
theorem fillSlots_mem :
    ∀ (order : List (Fin 3)) (res : Fin 3 → Except GenError RunResult)
      (slots slots2 : Fin 3 → Option RunResult),
      fillSlots order res slots = .ok slots2 →
      ∀ j, slots2 j = slots j ∨ j ∈ order := by
  intro order
  induction order with
  | nil =>
      intro res slots slots2 h j
      simp only [fillSlots, Except.ok.injEq] at h
      subst h
      exact Or.inl rfl
  | cons i rest ih =>
      intro res slots slots2 h j
      simp only [fillSlots] at h
      cases hri : res i with
      | error e1 =>
          rw [hri] at h
          simp at h
      | ok r1 =>
          rw [hri] at h
          simp only at h
          rcases ih res _ slots2 h j with hup | hmem
          · by_cases hji : j = i
            · exact Or.inr (hji ▸ List.mem_cons_self i rest)
            · rw [hup, if_neg hji]
              exact Or.inl rfl
          · exact Or.inr (List.mem_cons_of_mem i hmem)

/-- Helper: for a completion order that is a permutation of the three
branch indices, with all branches succeeding, gather returns the three
results in input order. -/
theorem gather3_perm (res : Fin 3 → Except GenError RunResult) (r : Fin 3 → RunResult)
    (order : List (Fin 3)) (hperm : order.Perm [0, 1, 2])
    (hres : ∀ i, res i = .ok (r i)) :
    gather3 order res = some (.ok [r 0, r 1, r 2]) := by
  have hmem : ∀ j : Fin 3, j ∈ order := by
    intro j
    exact hperm.mem_iff.mpr (by fin_cases j <;> decide)
  have hs : (fun j => if j ∈ order then some (r j) else (none : Option RunResult)) =
      fun j => some (r j) := by
    funext j
    simp [hmem j]
  unfold gather3
  rw [fillSlots_ok res r hres order (fun _ => none), hs]

/-- Claim C1: the parallel fan-out (a) returns, for every completion
order of the three branches, the three final outputs in input order —
output `i` comes from generator agent `i` — when all branches succeed,
and (b) does not return at all (the join barrier holds) until every
branch has completed or some processed branch has failed. -/
theorem C1_parallel_fanout :
    (∀ (runner : AgentName → String → Except GenError RunResult)
       (order : List (Fin 3)) (message : String) (r : Fin 3 → RunResult),
       order.Perm [0, 1, 2] →
       (∀ i, runner (genAgent i) message = .ok (r i)) →
       generate_parallel_emails runner order message =
         some (.ok [(r 0).final_output, (r 1).final_output, (r 2).final_output])) ∧
    (∀ (order : List (Fin 3)) (res : Fin 3 → Except GenError RunResult) x,
       gather3 order res = some x →
       (∀ i : Fin 3, i ∈ order) ∨ (∃ i, i ∈ order ∧ ∃ e, res i = .error e)) := by
  constructor
  · intro runner order message r hperm hres
    unfold generate_parallel_emails
    rw [gather3_perm (fun i => runner (genAgent i) message) r order hperm hres]
    rfl
  · intro order res x hx
    unfold gather3 at hx
    cases hfill : fillSlots order res (fun _ => none) with
    | error e =>
        obtain ⟨i, hi, he⟩ := fillSlots_error order res _ e hfill
        exact Or.inr ⟨i, hi, e, he⟩
    | ok slots =>
        rw [hfill] at hx
        simp only at hx
        have m0 := fillSlots_mem order res _ slots hfill 0
        have m1 := fillSlots_mem order res _ slots hfill 1
        have m2 := fillSlots_mem order res _ slots hfill 2
        cases h0 : slots 0 with
        | none =>
            rw [h0] at hx
            simp at hx
        | some a =>
            cases h1 : slots 1 with
            | none =>
                rw [h0, h1] at hx
                simp at hx
            | some b =>
                cases h2 : slots 2 with
                | none =>
                    rw [h0, h1, h2] at hx
                    simp at hx
                | some c =>
                    left
                    have hm0 : (0 : Fin 3) ∈ order := by
                      rcases m0 with hbad | hok
                      · rw [h0] at hbad
                        exact absurd hbad (by simp)
                      · exact hok
                    have hm1 : (1 : Fin 3) ∈ order := by
                      rcases m1 with hbad | hok
                      · rw [h1] at hbad
                        exact absurd hbad (by simp)
                      · exact hok
                    have hm2 : (2 : Fin 3) ∈ order := by
                      rcases m2 with hbad | hok
                      · rw [h2] at hbad
                        exact absurd hbad (by simp)
                      · exact hok
                    intro j
                    fin_cases j
                    · exact hm0
                    · exact hm1
                    · exact hm2

/-- Claim C1 witness: a scrambled completion order still yields the
outputs in input order, and the returned gather covers all branches. -/
theorem C1_parallel_fanout_witness :
    generate_parallel_emails (fun _ _ => .ok ⟨"out"⟩) [2, 0, 1] "Write a cold sales email" =
      some (.ok ["out", "out", "out"]) :=
  C1_parallel_fanout.1 (fun _ _ => .ok ⟨"out"⟩) [2, 0, 1] "Write a cold sales email"
    (fun _ => ⟨"out"⟩) (by decide) (fun _ => rfl)
